import Mathlib

/-!
# Verification of the RasTI core (Src/Core.cpp, Inc/Core.h)

Shallow embedding of the RasTI privilege-acquisition and path-validation
core. Pure string manipulation is translated directly from the source;
Windows API calls (RtlAdjustPrivilege, GetFullPathNameA, FileExists,
GetTokenInformation, LogonUserExExW, ...) are modelled as oracle fields so
that every theorem quantifies over all possible OS behaviours.

`AnsiString` (C++Builder VCL) is 1-indexed: `s[1]` is the first character,
`s.SubString(1, n)` is the first `n` characters, `s.Pos(sub)` is the 1-based
position of the first occurrence of `sub` (0 when absent).  The embedding
keeps that convention explicit (`ansiChar` takes a 1-based index).
-/

/-- Does `needle` occur at the head of `hay`? (char-list version of a
C-string comparison at one offset). -/
def startsWithL : List Char → List Char → Bool
  | [], _ => true
  | _ :: _, [] => false
  | n :: ns, h :: hs => n == h && startsWithL ns hs

/-- Does `needle` occur anywhere inside `hay`?  `ansiContains hay needle`
models `hay.Pos(needle) > 0` for a non-empty `needle` (AnsiString.Pos). -/
def subListOf (needle : List Char) : List Char → Bool
  | [] => startsWithL needle []
  | h :: t => startsWithL needle (h :: t) || subListOf needle t

/-- Model of `AnsiString.Pos(needle) > 0` as a Boolean on Lean strings. -/
def ansiContains (hay needle : String) : Bool :=
  subListOf needle.toList hay.toList

/-- ASCII lower-casing of one character (model of the ANSI `LowerCase`). -/
def asciiLowerChar (c : Char) : Char :=
  if 'A' ≤ c ∧ c ≤ 'Z' then Char.ofNat (c.toNat + 32) else c

/-- ASCII lower-casing of a string (model of `AnsiString.LowerCase()`). -/
def asciiLower (s : String) : String :=
  (s.toList.map asciiLowerChar).asString

/-- The character of `s` at 1-based index `i` (AnsiString `s[i]`); the NUL
character when out of range. -/
def ansiChar (s : String) (i : Nat) : Char :=
  s.toList.getD (i - 1) (Char.ofNat 0)

/-- Delphi RTL `ExtractFileExt` (Windows): the suffix of the name starting
at the last occurrence of `.`, `\` or `:`, provided that occurrence is a
dot; empty otherwise.  Walks the reversed character list. -/
def extRevAux (acc : List Char) : List Char → List Char
  | [] => []
  | c :: rest =>
    if c = '.' then '.' :: acc
    else if c = '\\' ∨ c = ':' then []
    else extRevAux (c :: acc) rest

/-- Model of `ExtractFileExt` from the Delphi RTL (used at Core.cpp:714). -/
def extractFileExt (s : String) : String :=
  (extRevAux [] s.toList.reverse).asString

/-- Model of `ExtractFileName` from the Delphi RTL (used at Core.cpp:698):
everything after the last `\` or `:`. -/
def extractFileName (s : String) : String :=
  ((s.toList.reverse.takeWhile (fun c => ¬(c = '\\' ∨ c = ':'))).reverse).asString

/-- The characters the validator's `strchr(suspiciousChars, c)` scan hits:
the literal set `<>"|?*` from Core.cpp:803, plus NUL (since `strchr`
matches the terminator of its first argument as well). -/
def strchrSuspicious (c : Char) : Bool :=
  (['<', '>', '"', '|', '?', '*'] : List Char).contains c || c = Char.ofNat 0

/-- Translation of `IsPathTraversalSafe` (Core.cpp:798-809), translated check for check:
reject `..\` / `../`, then `\..` / `/..`, then any suspicious character. -/
def isPathTraversalSafe (path : String) : Bool :=
  if ansiContains path "..\\" || ansiContains path "../" then false
  else if ansiContains path "\\.." || ansiContains path "/.." then false
  else if path.toList.any strchrSuspicious then false
  else true

/-- Translation of `GetCanonicalPath` (Core.cpp:751-796).  `osFullPath` is the oracle for
`GetFullPathNameA` (`none` = the API failed, i.e. returned size 0); the
two-call size/fill pattern is deterministic, and a successful second call
returning an empty string hits the `actualSize == 0` guard and fails.
After the API, the code replaces `/` with `\` and then — because
AnsiString is 1-indexed — compares the SECOND-TO-LAST character with `\`
(`canonicalPath[Length()-1]`) and the third-to-last with `:` before
dropping the LAST character (`SubString(1, Length()-1)`). -/
def getCanonicalPath (osFullPath : String → Option String) (path : String) : String :=
  if path.isEmpty then ""
  else
    match osFullPath path with
    | none => ""
    | some fullPath =>
      if fullPath.isEmpty then ""
      else
        let canonicalPath := (fullPath.toList.map (fun c => if c = '/' then '\\' else c)).asString
        let n := canonicalPath.length
        if 3 < n ∧ ansiChar canonicalPath (n - 1) = '\\' ∧ ansiChar canonicalPath (n - 2) ≠ ':' then
          (canonicalPath.toList.take (n - 1)).asString
        else canonicalPath

/-- Environment of `ValidateExecutablePath`: the filesystem / RTL calls it
depends on.  `findInPath` abstracts `FindExecutableInPath` (Core.cpp:842),
whose own behaviour depends on `getenv("PATH")`, `TStringList` delimiting
and the filesystem; quantifying over every behaviour of it covers the real
one. `fileExists`, `isValidExec` abstract `FileExists` / `IsValidExecutable`
(version-info plus read-access probe), both filesystem-dependent. -/
structure PathEnv where
  fullPathName : String → Option String
  fileExists : String → Bool
  findInPath : String → String
  isValidExec : String → Bool

/-- VALIDATION 5 of `ValidateExecutablePath` (Core.cpp:694-711): the
existence check on the canonical path with the PATH-search fallback;
returns the `validatedPath` the later steps operate on, or `none` when the
function returns false inside this block. -/
def resolveValidated (env : PathEnv) (canonicalPath : String) : Option String :=
  if env.fileExists canonicalPath = true then some canonicalPath
  else
    let exeName := extractFileName canonicalPath
    let foundPath := env.findInPath exeName
    if foundPath.isEmpty = false then
      let canonicalFoundPath := getCanonicalPath env.fullPathName foundPath
      if canonicalFoundPath.isEmpty = false ∧ isPathTraversalSafe canonicalFoundPath = true then
        some canonicalFoundPath
      else none
    else none

/-- Constant `MAX_PATH` (Windows). -/
def maxPathLen : Nat := 260

/-- Translation of `ValidateExecutablePath` (Core.cpp:665-722): empty/length checks, the
pre-canonical traversal check, canonicalization, the post-canonical
traversal check, existence resolution (with PATH fallback), the extension
allow-list, and the final executable probe. -/
def validateExecutablePath (env : PathEnv) (path : String) : Bool :=
  if path.isEmpty then false
  else if maxPathLen < path.length then false
  else if isPathTraversalSafe path = false then false
  else
    let canonicalPath := getCanonicalPath env.fullPathName path
    if canonicalPath.isEmpty then false
    else if maxPathLen < canonicalPath.length then false
    else if isPathTraversalSafe canonicalPath = false then false
    else
      match resolveValidated env canonicalPath with
      | none => false
      | some validatedPath =>
        let ext := asciiLower (extractFileExt validatedPath)
        if ext ≠ ".exe" ∧ ext ≠ ".bat" ∧ ext ≠ ".cmd" ∧ ext ≠ ".com" then false
        else env.isValidExec validatedPath

-- Sanity checks on the path model.
example : isPathTraversalSafe "C:\\Windows\\notepad.exe" = true := by decide
example : isPathTraversalSafe "..\\notepad.exe" = false := by decide
example : isPathTraversalSafe "C:\\Windows\\..\\System32\\notepad.exe" = false := by decide
example : isPathTraversalSafe "test<>.exe" = false := by decide
example : extractFileExt "C:\\tool.exe" = ".exe" := by decide
example : extractFileExt "C:\\tool" = "" := by decide
example : asciiLower ".EXE" = ".exe" := by decide
example : getCanonicalPath (fun s => some s) "C:\\a\\b" = "C:\\a\\" := by decide
example : getCanonicalPath (fun s => some s) "C:\\Windows\\System32\\notepad.exe"
    = "C:\\Windows\\System32\\notepad.exe" := by decide

/-- Privilege constants from Inc/Core.h. -/
def SE_TCB_PRIVILEGE : Int := 7

/-- Constant `SE_DEBUG_PRIVILEGE` (Inc/Core.h:61). -/
def SE_DEBUG_PRIVILEGE : Int := 20

/-- Constant `SE_IMPERSONATE_PRIVILEGE` (Inc/Core.h:70). -/
def SE_IMPERSONATE_PRIVILEGE : Int := 29

/-- Macro `NT_SUCCESS(status)` = `status >= 0` (Inc/Core.h:28). -/
def ntSuccess (status : Int) : Bool := decide (0 ≤ status)

/-- Oracle for `EnablePrivilege`: whether the dynamically resolved
`pRtlAdjustPrivilege` pointer is non-null, and the NTSTATUS the API
returns for a given (privilege, ThreadPrivilege) request. -/
structure PrivOracle where
  rtlPtr : Bool
  rtlStatus : Int → Bool → Int

/-- Translation of `EnablePrivilege` (Core.cpp:89-128).  First component: the returned
Bool.  Second component: whether `RtlAdjustPrivilege` was invoked on this
execution.  The null-pointer guard precedes the whitelist `switch`; any
privilege other than TCB/Debug/Impersonate returns false before the call. -/
def enablePrivilege (o : PrivOracle) (impersonating : Bool) (privilege_value : Int) :
    Bool × Bool :=
  if o.rtlPtr = false then (false, false)
  else if privilege_value = SE_TCB_PRIVILEGE ∨ privilege_value = SE_DEBUG_PRIVILEGE ∨
      privilege_value = SE_IMPERSONATE_PRIVILEGE then
    (ntSuccess (o.rtlStatus privilege_value impersonating), true)
  else (false, false)

/-- Oracle for `ImpersonateTcbToken`: snapshot creation, the
`Process32FirstW` outcome (`firstErr` is `GetLastError` when it fails;
`ERROR_NO_MORE_FILES` = 18 is tolerated), the enumerated (name, pid)
entries, and the outcomes of `OpenProcess`, `OpenProcessToken`, and
`ImpersonateLoggedOnUser`. -/
structure ImpOracle where
  snapshotOk : Bool
  firstOk : Bool
  firstErr : Nat
  processes : List (String × Nat)
  openProcOk : Bool
  openTokOk : Bool
  imperOk : Bool

/-- The `_wcsicmp(L"winlogon.exe", entry.szExeFile)` search loop
(Core.cpp:183-191): pid of the first case-insensitive match, 0 if none. -/
def findWinlogonPid : List (String × Nat) → Nat
  | [] => 0
  | (name, pid) :: rest =>
    if asciiLower name = "winlogon.exe" then pid else findWinlogonPid rest

/-- Result of `ImpersonateTcbToken`: the returned Bool and whether the
calling thread is left impersonating (set exactly when
`ImpersonateLoggedOnUser` succeeded). -/
structure ImpOut where
  result : Bool
  thread : Bool

/-- Translation of `ImpersonateTcbToken` (Core.cpp:150-239).  Every failure path returns
before `ImpersonateLoggedOnUser`, so the thread is left impersonating iff
the function returns true.  When `Process32FirstW` fails (tolerated only
with `ERROR_NO_MORE_FILES`) the zero-initialised entry matches nothing,
so the enumerated list is effectively empty. -/
def impersonateTcbToken (o : ImpOracle) : ImpOut :=
  if o.snapshotOk = false then ⟨false, false⟩
  else if o.firstOk = false ∧ o.firstErr ≠ 18 then ⟨false, false⟩
  else
    let winlogonPid := findWinlogonPid (if o.firstOk then o.processes else [])
    if winlogonPid = 0 then ⟨false, false⟩
    else if o.openProcOk = false then ⟨false, false⟩
    else if o.openTokOk = false then ⟨false, false⟩
    else if o.imperOk = false then ⟨false, false⟩
    else ⟨true, true⟩

/-- Function `ImpersonateTcbToken` reports true exactly when it left the thread
impersonating. -/
theorem impersonateTcbToken_result_eq_thread (o : ImpOracle) :
    (impersonateTcbToken o).result = (impersonateTcbToken o).thread := by
  unfold impersonateTcbToken
  split_ifs <;> first
    | rfl
    | (dsimp only []; split <;> rfl)

/-- Constant `SE_GROUP_ENABLED` (winnt.h). -/
def SE_GROUP_ENABLED : Nat := 4

/-- Constant `SE_GROUP_OWNER` (winnt.h). -/
def SE_GROUP_OWNER : Nat := 8

/-- One `SID_AND_ATTRIBUTES` entry; the SID is abstracted to an identifier. -/
structure SidAttr where
  sid : Nat
  attributes : Nat
deriving DecidableEq, Repr

/-- A fetched `TOKEN_GROUPS` buffer: the `GroupCount` field and the
`Groups` array contents. -/
structure TokenGroups where
  groupCount : Nat
  groups : List SidAttr
deriving DecidableEq, Repr

/-- The abstract identifier of the binary form of
`TRUSTED_INSTALLER_SID` (Inc/Core.h:96). -/
def trustedInstallerSidId : Nat := 1853292631

/-- STEP 6 of `GetTrustedInstallerToken` (Core.cpp:389-393): overwrite the
entry at `GroupCount - 1` with the TrustedInstaller SID and attributes
`SE_GROUP_OWNER | SE_GROUP_ENABLED`. -/
def injectTrustedInstallerSid (tiSid : Nat) (tg : TokenGroups) : TokenGroups :=
  let lastGroupIndex := tg.groupCount - 1
  { groupCount := tg.groupCount
    groups := tg.groups.set lastGroupIndex
      { sid := tiSid, attributes := SE_GROUP_OWNER ||| SE_GROUP_ENABLED } }

/-- The observable stages of `GetTrustedInstallerToken`, in the order the
function reaches them. -/
inductive TIEvent where
  | enableTcbProcess
  | enableDebugProcess
  | impersonateWinlogon
  | enableTcbThread
  | convertSid
  | openThreadTok
  | openProcessTok
  | sizeQuery
  | allocGroups
  | fetchGroups
  | logonExchange
deriving DecidableEq, Repr

/-- The four privilege-stage events of STEP 1. -/
def isPrivStage : TIEvent → Bool
  | .enableTcbProcess => true
  | .enableDebugProcess => true
  | .impersonateWinlogon => true
  | .enableTcbThread => true
  | _ => false

/-- Oracle for `GetTrustedInstallerToken`: the `EnablePrivilege` /
`ImpersonateTcbToken` sub-oracles plus the outcomes of
`ConvertStringSidToSidA`, `OpenThreadToken` / `OpenProcessToken`, the
`GetTokenInformation` size query (`sizeQueryOk` = the querying call
returned TRUE, `sizeQueryErr` = `GetLastError` otherwise,
`reportedSize` = the size it reported), the platform constants
`sizeof(TOKEN_GROUPS)` / `sizeof(SID_AND_ATTRIBUTES)`, the
`LocalAlloc`-backed allocation, the filling `GetTokenInformation` call and
the buffer contents it delivers, and the `LogonUserExExW` exchange
(pointer resolved, outcome, produced handle). -/
structure TIOracle where
  priv : PrivOracle
  imp : ImpOracle
  convertSidOk : Bool
  openThreadTokOk : Bool
  openProcessTokOk : Bool
  sizeQueryOk : Bool
  sizeQueryErr : Nat
  reportedSize : Nat
  szTokenGroups : Nat
  szSidAndAttr : Nat
  allocOk : Bool
  fetchOk : Bool
  fetched : TokenGroups
  logonPtrOk : Bool
  logonOk : Bool
  logonHandle : Nat

/-- State accumulated by the `do { ... } while(false)` body of
`GetTrustedInstallerToken` at the point the body is left (by `break` or by
falling off the end): the `impersonating` local flag, whether the thread
is actually impersonating, whether the SID binary form was allocated, the
acquired token, the stage trace, the number of bytes the group buffer
allocation requested, and the group list handed to `LogonUserExExW`. -/
structure TIBody where
  imperFlag : Bool
  threadImp : Bool
  sidAllocated : Bool
  token : Option Nat
  stageTrace : List TIEvent
  allocatedBytes : Option Nat
  logonGroups : Option TokenGroups
deriving Repr

/-- STEPs 4-7 of `GetTrustedInstallerToken` (Core.cpp:341-425): size query
with bounds validation, buffer allocation (`tokenGroupsMemory.Allocate(1)`
— ONE `TOKEN_GROUPS` element, i.e. `1 * sizeof(TOKEN_GROUPS)` bytes; the
`structSize` / `remainingBytes` / `sidCount` values computed at
Core.cpp:363-365 are never used), the filling fetch, the last-entry
overwrite, and the `LogonUserExExW` exchange.  `SmartLocalMemory` is not
defined under src/; its `Allocate(count)` is modelled as allocating
`count * sizeof(T)` bytes, the reading that matches its other call site
(`Allocate(privilegesSize / sizeof(TOKEN_PRIVILEGES) + ...)`,
Core.cpp:564) and the spec's allocate-that-many-bytes wording. -/
def tiGroupsStage (o : TIOracle) (f t : Bool) (tr : List TIEvent) : TIBody :=
  let tr4 := tr ++ [TIEvent.sizeQuery]
  if o.sizeQueryOk = false ∧ o.sizeQueryErr ≠ 122 then
    ⟨f, t, true, none, tr4, none, none⟩
  else if o.reportedSize = 0 ∨ o.reportedSize < o.szTokenGroups ∨ 65536 < o.reportedSize then
    ⟨f, t, true, none, tr4, none, none⟩
  else
    let tr5 := tr4 ++ [TIEvent.allocGroups]
    if o.allocOk = false then ⟨f, t, true, none, tr5, none, none⟩
    else
      let allocBytes := 1 * o.szTokenGroups
      let tr6 := tr5 ++ [TIEvent.fetchGroups]
      if o.fetchOk = false then ⟨f, t, true, none, tr6, some allocBytes, none⟩
      else
        let modified := injectTrustedInstallerSid trustedInstallerSidId o.fetched
        if o.logonPtrOk = false then ⟨f, t, true, none, tr6, some allocBytes, none⟩
        else
          let tr7 := tr6 ++ [TIEvent.logonExchange]
          if o.logonOk then ⟨f, t, true, some o.logonHandle, tr7, some allocBytes, some modified⟩
          else ⟨f, t, true, none, tr7, some allocBytes, some modified⟩

/-- STEPs 2-3 of `GetTrustedInstallerToken` (Core.cpp:301-339): the SID
string-to-binary conversion, then the thread-token (when impersonating) or
process-token open. -/
def tiAfterPrivileges (o : TIOracle) (f t : Bool) (tr : List TIEvent) : TIBody :=
  let tr2 := tr ++ [TIEvent.convertSid]
  if o.convertSidOk = false then ⟨f, t, false, none, tr2, none, none⟩
  else if f then
    let tr3 := tr2 ++ [TIEvent.openThreadTok]
    if o.openThreadTokOk = false then ⟨f, t, true, none, tr3, none, none⟩
    else tiGroupsStage o f t tr3
  else
    let tr3 := tr2 ++ [TIEvent.openProcessTok]
    if o.openProcessTokOk = false then ⟨f, t, true, none, tr3, none, none⟩
    else tiGroupsStage o f t tr3

/-- STEP 1 of `GetTrustedInstallerToken` (Core.cpp:282-299) followed by
the rest of the body: try TCB at process scope; on failure try Debug at
process scope (abort on failure), then `ImpersonateTcbToken` (abort on
failure; note `!impersonating` short-circuits the thread-scope enable),
then TCB at thread scope (abort on failure). -/
def tiBody (o : TIOracle) : TIBody :=
  let e1 := enablePrivilege o.priv false SE_TCB_PRIVILEGE
  let t1 := [TIEvent.enableTcbProcess]
  if e1.1 = false then
    let e2 := enablePrivilege o.priv false SE_DEBUG_PRIVILEGE
    let t2 := t1 ++ [TIEvent.enableDebugProcess]
    if e2.1 = false then ⟨false, false, false, none, t2, none, none⟩
    else
      let ir := impersonateTcbToken o.imp
      let t3 := t2 ++ [TIEvent.impersonateWinlogon]
      if ir.result = false then ⟨ir.result, ir.thread, false, none, t3, none, none⟩
      else
        let e3 := enablePrivilege o.priv true SE_TCB_PRIVILEGE
        let t4 := t3 ++ [TIEvent.enableTcbThread]
        if e3.1 = false then ⟨ir.result, ir.thread, false, none, t4, none, none⟩
        else tiAfterPrivileges o ir.result ir.thread t4
  else tiAfterPrivileges o false false t1

/-- What `GetTrustedInstallerToken` leaves behind when it returns: the
returned handle (`none` = NULL), the thread's impersonation state at the
return, whether impersonation was entered during the call, how many times
`RevertToSelf` ran, the stage trace, the requested group-buffer size in
bytes, and the group list handed to the logon exchange. -/
structure TIResult where
  token : Option Nat
  threadImpersonating : Bool
  entered : Bool
  reverts : Nat
  stageTrace : List TIEvent
  allocatedBytes : Option Nat
  logonGroups : Option TokenGroups
deriving Repr

/-- Translation of `GetTrustedInstallerToken` (Core.cpp:266-444): the body followed by
the unconditional cleanup (Core.cpp:432-443): `RevertToSelf()` exactly
when the `impersonating` flag is set, `FreeSid` when allocated, the RAII
close of the current-token handle, then the return. -/
def getTrustedInstallerToken (o : TIOracle) : TIResult :=
  let b := tiBody o
  { token := b.token
    threadImpersonating := if b.imperFlag then false else b.threadImp
    entered := b.threadImp
    reverts := if b.imperFlag then 1 else 0
    stageTrace := b.stageTrace
    allocatedBytes := b.allocatedBytes
    logonGroups := b.logonGroups }

/-- Oracle for `CreateProcessWithTIToken`: the privilege oracle for the
`SeImpersonatePrivilege` enable, the full `GetTrustedInstallerToken`
oracle, and the `CreateProcessWithTokenW` outcome. -/
structure SpawnOracle where
  priv : PrivOracle
  ti : TIOracle
  createOk : Bool

/-- What `CreateProcessWithTIToken` leaves behind: its returned Bool,
whether `GetTrustedInstallerToken` produced a valid token inside the call,
how many times the TI token handle was passed to `CloseHandle`, and how
many process/thread handles of the new process were closed. -/
structure SpawnResult where
  success : Bool
  tokenObtained : Bool
  tokenCloses : Nat
  procThreadCloses : Nat
deriving DecidableEq, Repr

/-- Translation of `CreateProcessWithTIToken` (Core.cpp:462-517): enable
`SeImpersonatePrivilege` (fail fast), acquire the TI token (fail fast on
NULL), call `CreateProcessWithTokenW`, close the new process/thread
handles on success, and always close the TI token before returning. -/
def createProcessWithTIToken (o : SpawnOracle) : SpawnResult :=
  if (enablePrivilege o.priv false SE_IMPERSONATE_PRIVILEGE).1 = false then
    ⟨false, false, 0, 0⟩
  else
    match (getTrustedInstallerToken o.ti).token with
    | none => ⟨false, false, 0, 0⟩
    | some _ =>
      if o.createOk then ⟨true, true, 1, 2⟩
      else ⟨false, true, 1, 0⟩

/-- Token `..\` or `../` occurs in `s` (the parent-directory traversal tokens of
the spec's step 2). -/
def hasTraversalToken (s : String) : Bool :=
  ansiContains s "..\\" || ansiContains s "../"

/-- One of the characters `< > " | ? *` occurs in `s`. -/
def hasForbiddenChar (s : String) : Bool :=
  s.toList.any (fun c => (['<', '>', '"', '|', '?', '*'] : List Char).contains c)

theorem unsafe_of_traversal_token {s : String} (h : hasTraversalToken s = true) :
    isPathTraversalSafe s = false := by
  unfold isPathTraversalSafe
  unfold hasTraversalToken at h
  rw [if_pos h]

theorem unsafe_of_forbidden_char {s : String} (h : hasForbiddenChar s = true) :
    isPathTraversalSafe s = false := by
  unfold isPathTraversalSafe
  have hany : s.toList.any strchrSuspicious = true := by
    unfold hasForbiddenChar at h
    obtain ⟨c, hc, hpred⟩ := List.any_eq_true.mp h
    exact List.any_eq_true.mpr ⟨c, hc, by unfold strchrSuspicious; rw [hpred]; rfl⟩
  split_ifs <;> rfl

theorem validate_false_of_unsafe (env : PathEnv) (p : String)
    (h : isPathTraversalSafe p = false ∨
      isPathTraversalSafe (getCanonicalPath env.fullPathName p) = false) :
    validateExecutablePath env p = false := by
  unfold validateExecutablePath
  rcases h with h | h
  · simp [h]
  · simp [h]

/-- C2.  Any input containing a traversal token (`..\` or `../`) or one of
the characters `< > " | ? *` is rejected by `ValidateExecutablePath`; the
same scan also fires when the canonicalized result contains such a
pattern, so the rejection is applied on both sides of canonicalization. -/
theorem validateExecutablePath_rejects_bad_patterns (env : PathEnv) (path : String)
    (h : (hasTraversalToken path || hasForbiddenChar path) = true ∨
      (hasTraversalToken (getCanonicalPath env.fullPathName path) ||
        hasForbiddenChar (getCanonicalPath env.fullPathName path)) = true) :
    validateExecutablePath env path = false := by
  apply validate_false_of_unsafe
  rcases h with h | h
  · rcases Bool.or_eq_true_iff.mp h with h | h
    · exact Or.inl (unsafe_of_traversal_token h)
    · exact Or.inl (unsafe_of_forbidden_char h)
  · rcases Bool.or_eq_true_iff.mp h with h | h
    · exact Or.inr (unsafe_of_traversal_token h)
    · exact Or.inr (unsafe_of_forbidden_char h)

/-- An environment whose filesystem is empty (for concrete evaluations). -/
def trivEnv : PathEnv :=
  { fullPathName := fun s => some s
    fileExists := fun _ => false
    findInPath := fun _ => ""
    isValidExec := fun _ => false }

/-- Witness for C2 at the concrete traversal input of end-to-end
scenario 2. -/
theorem validateExecutablePath_rejects_bad_patterns_witness :
    validateExecutablePath trivEnv "..\\..\\Windows\\System32\\cmd.exe" = false :=
  validateExecutablePath_rejects_bad_patterns trivEnv "..\\..\\Windows\\System32\\cmd.exe"
    (Or.inl (by decide))

/-- C10.  `IsPathTraversalSafe` also rejects every path containing `\..`
or `/..` (Core.cpp:801) — a strictly stronger filter than the traversal
tokens alone — and `ValidateExecutablePath` therefore rejects such paths. -/
theorem traversal_reject_covers_backslash_dotdot (env : PathEnv) (p : String)
    (h : (ansiContains p "\\.." || ansiContains p "/..") = true) :
    isPathTraversalSafe p = false ∧ validateExecutablePath env p = false := by
  have hs : isPathTraversalSafe p = false := by
    unfold isPathTraversalSafe
    by_cases h1 : (ansiContains p "..\\" || ansiContains p "../") = true
    · rw [if_pos h1]
    · rw [if_neg h1, if_pos h]
  exact ⟨hs, validate_false_of_unsafe env p (Or.inl hs)⟩

/-- Witness for C10: `C:\tools\..hidden.exe` contains `\..` but neither
traversal token, and is rejected by both functions. -/
theorem traversal_reject_covers_backslash_dotdot_witness :
    (ansiContains "C:\\tools\\..hidden.exe" "\\.." = true) ∧
    (hasTraversalToken "C:\\tools\\..hidden.exe" = false) ∧
    isPathTraversalSafe "C:\\tools\\..hidden.exe" = false ∧
    validateExecutablePath trivEnv "C:\\tools\\..hidden.exe" = false :=
  ⟨by decide, by decide,
    (traversal_reject_covers_backslash_dotdot trivEnv "C:\\tools\\..hidden.exe" (by decide)).1,
    (traversal_reject_covers_backslash_dotdot trivEnv "C:\\tools\\..hidden.exe" (by decide)).2⟩

/-- C8.  For any privilege identifier outside {TCB = 7, Debug = 20,
Impersonate = 29}, `EnablePrivilege` returns false and never invokes
`RtlAdjustPrivilege` (second component of the pair). -/
theorem enablePrivilege_rejects_unlisted (o : PrivOracle) (imper : Bool) (p : Int)
    (h7 : p ≠ SE_TCB_PRIVILEGE) (h20 : p ≠ SE_DEBUG_PRIVILEGE)
    (h29 : p ≠ SE_IMPERSONATE_PRIVILEGE) :
    enablePrivilege o imper p = (false, false) := by
  unfold enablePrivilege
  split_ifs with h1 h2
  · rfl
  · rcases h2 with h | h | h
    · exact absurd h h7
    · exact absurd h h20
    · exact absurd h h29
  · rfl

/-- Witness for C8 at `SE_INCREASE_QUOTA_PRIVILEGE` (5), with the API
pointer resolved and an always-succeeding API: still no call, result
false. -/
theorem enablePrivilege_rejects_unlisted_witness :
    enablePrivilege ⟨true, fun _ _ => 0⟩ false 5 = (false, false) :=
  enablePrivilege_rejects_unlisted ⟨true, fun _ _ => 0⟩ false 5
    (by decide) (by decide) (by decide)

/-- C7.  `CreateProcessWithTIToken` closes the TrustedInstaller token
exactly once whenever `GetTrustedInstallerToken` produced one inside the
call — in the success and in the failure branch of
`CreateProcessWithTokenW` alike — and never touches a token it did not
obtain. -/
theorem createProcessWithTIToken_closes_token (o : SpawnOracle) :
    (createProcessWithTIToken o).tokenCloses =
      (if (createProcessWithTIToken o).tokenObtained then 1 else 0) := by
  unfold createProcessWithTIToken
  split
  · rfl
  · split
    · rfl
    · split <;> rfl

theorem tiGroupsStage_imperFlag (o : TIOracle) (f t : Bool) (tr : List TIEvent) :
    (tiGroupsStage o f t tr).imperFlag = f := by
  unfold tiGroupsStage
  split_ifs <;> rfl

theorem tiGroupsStage_threadImp (o : TIOracle) (f t : Bool) (tr : List TIEvent) :
    (tiGroupsStage o f t tr).threadImp = t := by
  unfold tiGroupsStage
  split_ifs <;> rfl

theorem tiAfterPrivileges_imperFlag (o : TIOracle) (f t : Bool) (tr : List TIEvent) :
    (tiAfterPrivileges o f t tr).imperFlag = f := by
  unfold tiAfterPrivileges
  split_ifs <;> first | rfl | exact tiGroupsStage_imperFlag o f t _

theorem tiAfterPrivileges_threadImp (o : TIOracle) (f t : Bool) (tr : List TIEvent) :
    (tiAfterPrivileges o f t tr).threadImp = t := by
  unfold tiAfterPrivileges
  split_ifs <;> first | rfl | exact tiGroupsStage_threadImp o f t _

/-- Throughout the body, the `impersonating` local flag tracks the
thread's actual impersonation state: it is set from the return value of
`ImpersonateTcbToken`, which reports true exactly when impersonation was
entered, and no later step changes either. -/
theorem tiBody_state (o : TIOracle) : (tiBody o).imperFlag = (tiBody o).threadImp := by
  simp only [tiBody]
  split_ifs with h1 h2 h3 h4
  · rfl
  · exact impersonateTcbToken_result_eq_thread o.imp
  · exact impersonateTcbToken_result_eq_thread o.imp
  · simp only [tiAfterPrivileges_imperFlag, tiAfterPrivileges_threadImp]
    exact impersonateTcbToken_result_eq_thread o.imp
  · simp only [tiAfterPrivileges_imperFlag, tiAfterPrivileges_threadImp]

/-- C1.  On every exit path of `GetTrustedInstallerToken` — token or NULL
— the calling thread is left non-impersonating, and `RevertToSelf` runs
exactly once when impersonation was entered during the call and not at
all otherwise. -/
theorem getTrustedInstallerToken_reverts_cleanly (o : TIOracle) :
    (getTrustedInstallerToken o).threadImpersonating = false ∧
    (getTrustedInstallerToken o).reverts =
      (if (getTrustedInstallerToken o).entered then 1 else 0) := by
  have h := tiBody_state o
  unfold getTrustedInstallerToken
  dsimp only []
  constructor
  · cases hf : (tiBody o).imperFlag
    · have ht : (tiBody o).threadImp = false := h ▸ hf
      simp [hf, ht]
    · simp [hf]
  · cases hf : (tiBody o).imperFlag
    · have ht : (tiBody o).threadImp = false := h ▸ hf
      simp [hf, ht]
    · have ht : (tiBody o).threadImp = true := h ▸ hf
      simp [hf, ht]

theorem tiGroupsStage_trace (o : TIOracle) (f t : Bool) (tr : List TIEvent) :
    ∃ rest, (tiGroupsStage o f t tr).stageTrace = tr ++ rest ∧
      rest.all (fun e => !isPrivStage e) = true := by
  unfold tiGroupsStage
  split_ifs with h1 h2 h3 h4 h5 h6
  · exact ⟨[TIEvent.sizeQuery], by simp, by decide⟩
  · exact ⟨[TIEvent.sizeQuery], by simp, by decide⟩
  · exact ⟨[TIEvent.sizeQuery, TIEvent.allocGroups], by simp, by decide⟩
  · exact ⟨[TIEvent.sizeQuery, TIEvent.allocGroups, TIEvent.fetchGroups], by simp, by decide⟩
  · exact ⟨[TIEvent.sizeQuery, TIEvent.allocGroups, TIEvent.fetchGroups], by simp, by decide⟩
  · exact ⟨[TIEvent.sizeQuery, TIEvent.allocGroups, TIEvent.fetchGroups,
      TIEvent.logonExchange], by simp, by decide⟩
  · exact ⟨[TIEvent.sizeQuery, TIEvent.allocGroups, TIEvent.fetchGroups,
      TIEvent.logonExchange], by simp, by decide⟩

theorem tiAfterPrivileges_trace (o : TIOracle) (f t : Bool) (tr : List TIEvent) :
    ∃ rest, (tiAfterPrivileges o f t tr).stageTrace = tr ++ TIEvent.convertSid :: rest ∧
      rest.all (fun e => !isPrivStage e) = true := by
  unfold tiAfterPrivileges
  split_ifs with h1 h2 h3 h4
  · exact ⟨[], by simp, by decide⟩
  · exact ⟨[TIEvent.openThreadTok], by simp, by decide⟩
  · obtain ⟨rest, hr, ha⟩ := tiGroupsStage_trace o f t ((tr ++ [TIEvent.convertSid]) ++ [TIEvent.openThreadTok])
    refine ⟨TIEvent.openThreadTok :: rest, ?_, ?_⟩
    · simp only [hr]; simp
    · rw [List.all_cons, ha]; rfl
  · exact ⟨[TIEvent.openProcessTok], by simp, by decide⟩
  · obtain ⟨rest, hr, ha⟩ := tiGroupsStage_trace o f t ((tr ++ [TIEvent.convertSid]) ++ [TIEvent.openProcessTok])
    refine ⟨TIEvent.openProcessTok :: rest, ?_, ?_⟩
    · simp only [hr]; simp
    · rw [List.all_cons, ha]; rfl

/-- C3.  The privilege stage of `GetTrustedInstallerToken` follows
exactly the specified order: TCB at process scope first (on success, the
next stage reached is the SID conversion and none of the fallback stages
run); on failure, Debug at process scope (abort with failure if it
fails); then `ImpersonateTcbToken` (abort if it fails); then TCB at
thread scope (abort, with impersonation reverted and the thread left
non-impersonating, if it fails).  In each abort case the stage trace is
exactly the attempts made — no later stage (SID conversion, token
opening, group composition, logon exchange) appears. -/
theorem getTrustedInstallerToken_stage_order (o : TIOracle) :
    ((enablePrivilege o.priv false SE_TCB_PRIVILEGE).1 = true →
      ∃ rest, (getTrustedInstallerToken o).stageTrace =
          TIEvent.enableTcbProcess :: TIEvent.convertSid :: rest ∧
        rest.all (fun e => !isPrivStage e) = true) ∧
    ((enablePrivilege o.priv false SE_TCB_PRIVILEGE).1 = false →
      (enablePrivilege o.priv false SE_DEBUG_PRIVILEGE).1 = false →
      (getTrustedInstallerToken o).token = none ∧
      (getTrustedInstallerToken o).stageTrace =
        [TIEvent.enableTcbProcess, TIEvent.enableDebugProcess]) ∧
    ((enablePrivilege o.priv false SE_TCB_PRIVILEGE).1 = false →
      (enablePrivilege o.priv false SE_DEBUG_PRIVILEGE).1 = true →
      (impersonateTcbToken o.imp).result = false →
      (getTrustedInstallerToken o).token = none ∧
      (getTrustedInstallerToken o).stageTrace =
        [TIEvent.enableTcbProcess, TIEvent.enableDebugProcess,
          TIEvent.impersonateWinlogon]) ∧
    ((enablePrivilege o.priv false SE_TCB_PRIVILEGE).1 = false →
      (enablePrivilege o.priv false SE_DEBUG_PRIVILEGE).1 = true →
      (impersonateTcbToken o.imp).result = true →
      (enablePrivilege o.priv true SE_TCB_PRIVILEGE).1 = false →
      (getTrustedInstallerToken o).token = none ∧
      (getTrustedInstallerToken o).reverts = 1 ∧
      (getTrustedInstallerToken o).threadImpersonating = false ∧
      (getTrustedInstallerToken o).stageTrace =
        [TIEvent.enableTcbProcess, TIEvent.enableDebugProcess,
          TIEvent.impersonateWinlogon, TIEvent.enableTcbThread]) := by
  refine ⟨?_, ?_, ?_, ?_⟩
  · intro h1
    have hb : tiBody o = tiAfterPrivileges o false false [TIEvent.enableTcbProcess] := by
      simp [tiBody, h1]
    obtain ⟨rest, hr, ha⟩ := tiAfterPrivileges_trace o false false [TIEvent.enableTcbProcess]
    refine ⟨rest, ?_, ha⟩
    simp only [getTrustedInstallerToken]
    rw [hb, hr]
    simp
  · intro h1 h2
    simp [getTrustedInstallerToken, tiBody, h1, h2]
  · intro h1 h2 h3
    simp [getTrustedInstallerToken, tiBody, h1, h2, h3]
  · intro h1 h2 h3 h4
    simp [getTrustedInstallerToken, tiBody, h1, h2, h3, h4]

/-- A concrete oracle for the scenario 'TCB at process scope fails, Debug
succeeds, impersonation succeeds, TCB at thread scope fails'. -/
def oSc4 : TIOracle :=
  { priv := ⟨true, fun p thr => if thr then -1 else if p = 7 then -1 else 0⟩
    imp := ⟨true, true, 0, [("winlogon.exe", 4)], true, true, true⟩
    convertSidOk := true
    openThreadTokOk := true
    openProcessTokOk := true
    sizeQueryOk := false
    sizeQueryErr := 122
    reportedSize := 1024
    szTokenGroups := 24
    szSidAndAttr := 16
    allocOk := true
    fetchOk := true
    fetched := ⟨2, [⟨1, 4⟩, ⟨2, 4⟩]⟩
    logonPtrOk := true
    logonOk := true
    logonHandle := 1234 }

/-- Witness for C3: the fourth abort scenario at a concrete oracle — the
function aborts after exactly the four privilege-stage attempts, with the
impersonation reverted. -/
theorem getTrustedInstallerToken_stage_order_witness :
    (getTrustedInstallerToken oSc4).token = none ∧
    (getTrustedInstallerToken oSc4).reverts = 1 ∧
    (getTrustedInstallerToken oSc4).threadImpersonating = false ∧
    (getTrustedInstallerToken oSc4).stageTrace =
      [TIEvent.enableTcbProcess, TIEvent.enableDebugProcess,
        TIEvent.impersonateWinlogon, TIEvent.enableTcbThread] :=
  (getTrustedInstallerToken_stage_order oSc4).2.2.2
    (by decide) (by decide) (by decide) (by decide)

/-- An oracle on which every step succeeds and the token-groups size query
reports 1024 bytes (sizeof(TOKEN_GROUPS) = 24, the LLP64 layout). -/
def oAlloc : TIOracle :=
  { priv := ⟨true, fun _ _ => 0⟩
    imp := ⟨false, false, 0, [], false, false, false⟩
    convertSidOk := true
    openThreadTokOk := true
    openProcessTokOk := true
    sizeQueryOk := false
    sizeQueryErr := 122
    reportedSize := 1024
    szTokenGroups := 24
    szSidAndAttr := 16
    allocOk := true
    fetchOk := true
    fetched := ⟨2, [⟨1, 4⟩, ⟨2, 4⟩]⟩
    logonPtrOk := true
    logonOk := true
    logonHandle := 1234 }

/-- Oracle `oAlloc` with an undersized reported size (below one header). -/
def oAllocSmall : TIOracle := { oAlloc with reportedSize := 8 }

/-- Oracle `oAlloc` with an oversized reported size (above the 65536 ceiling). -/
def oAllocHuge : TIOracle := { oAlloc with reportedSize := 70000 }

/-- Oracle `oAlloc` with a zero reported size. -/
def oAllocZero : TIOracle := { oAlloc with reportedSize := 0 }

/-- C4 (refuting evaluation).  The bounds check of STEP 4 does abort on a
zero, undersized or oversized reported size, but when the function
proceeds it does NOT allocate a buffer of the reported S bytes: the call
`tokenGroupsMemory.Allocate(1)` (Core.cpp:368) requests one
`TOKEN_GROUPS` element — `1 * sizeof(TOKEN_GROUPS)` bytes — for every S,
here 24 bytes against a reported 1024, even though the subsequent fetch
is told the buffer holds `tokenGroupsSize` bytes (Core.cpp:381). -/
theorem getTrustedInstallerToken_alloc_not_reported_size :
    oAlloc.reportedSize = 1024 ∧
    (getTrustedInstallerToken oAlloc).token = some 1234 ∧
    (getTrustedInstallerToken oAlloc).allocatedBytes = some (1 * oAlloc.szTokenGroups) ∧
    (getTrustedInstallerToken oAlloc).allocatedBytes ≠ some oAlloc.reportedSize ∧
    (getTrustedInstallerToken oAllocSmall).token = none ∧
    (getTrustedInstallerToken oAllocSmall).allocatedBytes = none ∧
    (getTrustedInstallerToken oAllocHuge).token = none ∧
    (getTrustedInstallerToken oAllocHuge).allocatedBytes = none ∧
    (getTrustedInstallerToken oAllocZero).token = none ∧
    (getTrustedInstallerToken oAllocZero).allocatedBytes = none := by decide

/-- C5 (refuting evaluation).  `GetCanonicalPath` is not idempotent on
already-canonical absolute paths: on `C:\a\b` — with `GetFullPathNameA`
returning an already-absolute, dot-free input unchanged — the 1-based
`canonicalPath[Length()-1]` test (Core.cpp:790) inspects the
second-to-last character (the `\` before the final single-character
component), so `SubString(1, Length()-1)` drops the final `b`. -/
theorem getCanonicalPath_truncates_short_last_component :
    getCanonicalPath (fun s => some s) "C:\\a\\b" = "C:\\a\\" ∧
    getCanonicalPath (fun s => some s) "C:\\a\\b" ≠ "C:\\a\\b" := by decide

theorem list_get?_set_same {α : Type} (l : List α) (i : Nat) (a : α) (h : i < l.length) :
    (l.set i a).get? i = some a := by
  induction l generalizing i with
  | nil => simp at h
  | cons x xs ih =>
    cases i with
    | zero => rfl
    | succ n =>
      simp only [List.set, List.get?]
      exact ih n (Nat.lt_of_succ_lt_succ h)

theorem list_get?_set_other {α : Type} (l : List α) (i j : Nat) (a : α) (h : i ≠ j) :
    (l.set i a).get? j = l.get? j := by
  induction l generalizing i j with
  | nil => rfl
  | cons x xs ih =>
    cases i with
    | zero =>
      cases j with
      | zero => exact absurd rfl h
      | succ m => rfl
    | succ n =>
      cases j with
      | zero => rfl
      | succ m =>
        simp only [List.set, List.get?]
        exact ih n m (fun he => h (by rw [he]))

/-- C6.  The STEP-6 group-list modification overwrites exactly the entry
at index `GroupCount - 1` — its SID becomes the TrustedInstaller SID and
its attributes `SE_GROUP_OWNER | SE_GROUP_ENABLED` — while `GroupCount`,
the array length, and every other entry are unchanged. -/
theorem injectTrustedInstallerSid_overwrites_last_only (tg : TokenGroups) (tiSid : Nat)
    (hc : tg.groupCount = tg.groups.length) (hpos : 0 < tg.groupCount) :
    (injectTrustedInstallerSid tiSid tg).groupCount = tg.groupCount ∧
    (injectTrustedInstallerSid tiSid tg).groups.length = tg.groups.length ∧
    (injectTrustedInstallerSid tiSid tg).groups.get? (tg.groupCount - 1) =
      some ⟨tiSid, SE_GROUP_OWNER ||| SE_GROUP_ENABLED⟩ ∧
    ∀ i, i ≠ tg.groupCount - 1 →
      (injectTrustedInstallerSid tiSid tg).groups.get? i = tg.groups.get? i := by
  refine ⟨rfl, ?_, ?_, ?_⟩
  · simp [injectTrustedInstallerSid]
  · exact list_get?_set_same tg.groups (tg.groupCount - 1) _ (by omega)
  · intro i hi
    exact list_get?_set_other tg.groups (tg.groupCount - 1) i _ (Ne.symm hi)

/-- A concrete two-entry group list. -/
def tgW : TokenGroups := ⟨2, [⟨1, 4⟩, ⟨2, 4⟩]⟩

/-- Witness for C6 on a concrete two-entry group list with SID 99. -/
theorem injectTrustedInstallerSid_overwrites_last_only_witness :
    (injectTrustedInstallerSid 99 tgW).groupCount = tgW.groupCount ∧
    (injectTrustedInstallerSid 99 tgW).groups.length = tgW.groups.length ∧
    (injectTrustedInstallerSid 99 tgW).groups.get? (tgW.groupCount - 1) =
      some ⟨99, SE_GROUP_OWNER ||| SE_GROUP_ENABLED⟩ ∧
    (injectTrustedInstallerSid 99 tgW).groups.get? 0 = tgW.groups.get? 0 :=
  ⟨(injectTrustedInstallerSid_overwrites_last_only tgW 99 rfl (by decide)).1,
    (injectTrustedInstallerSid_overwrites_last_only tgW 99 rfl (by decide)).2.1,
    (injectTrustedInstallerSid_overwrites_last_only tgW 99 rfl (by decide)).2.2.1,
    (injectTrustedInstallerSid_overwrites_last_only tgW 99 rfl (by decide)).2.2.2 0 (by decide)⟩

/-- C9.  `ValidateExecutablePath` succeeds only when the final validated
path (the canonical input, or the canonicalized PATH-search result) has a
lower-cased extension in {.exe, .bat, .cmd, .com}; any resolution with a
different extension (e.g. `.dll`) is rejected. -/
theorem validateExecutablePath_requires_allowed_extension (env : PathEnv) (p : String)
    (h : validateExecutablePath env p = true) :
    ∃ vp, resolveValidated env (getCanonicalPath env.fullPathName p) = some vp ∧
      (asciiLower (extractFileExt vp) = ".exe" ∨ asciiLower (extractFileExt vp) = ".bat" ∨
        asciiLower (extractFileExt vp) = ".cmd" ∨ asciiLower (extractFileExt vp) = ".com") := by
  simp only [validateExecutablePath] at h
  split_ifs at h with h1 h2 h3 h4 h5 h6
  cases hres : resolveValidated env (getCanonicalPath env.fullPathName p) with
  | none => rw [hres] at h; simp at h
  | some vp =>
    rw [hres] at h
    dsimp only [] at h
    split_ifs at h with hext
    by_cases e1 : asciiLower (extractFileExt vp) = ".exe"
    · exact ⟨vp, rfl, Or.inl e1⟩
    by_cases e2 : asciiLower (extractFileExt vp) = ".bat"
    · exact ⟨vp, rfl, Or.inr (Or.inl e2)⟩
    by_cases e3 : asciiLower (extractFileExt vp) = ".cmd"
    · exact ⟨vp, rfl, Or.inr (Or.inr (Or.inl e3))⟩
    by_cases e4 : asciiLower (extractFileExt vp) = ".com"
    · exact ⟨vp, rfl, Or.inr (Or.inr (Or.inr e4))⟩
    exact absurd ⟨e1, e2, e3, e4⟩ hext

/-- An environment in which exactly `C:\tool.exe` exists and is a valid
executable. -/
def okEnv : PathEnv :=
  { fullPathName := fun s => some s
    fileExists := fun s => s == "C:\\tool.exe"
    findInPath := fun _ => ""
    isValidExec := fun _ => true }

/-- Witness for C9: a concrete accepted input, whose resolved path indeed
carries an allow-listed extension. -/
theorem validateExecutablePath_requires_allowed_extension_witness :
    ∃ vp, resolveValidated okEnv (getCanonicalPath okEnv.fullPathName "C:\\tool.exe") = some vp ∧
      (asciiLower (extractFileExt vp) = ".exe" ∨ asciiLower (extractFileExt vp) = ".bat" ∨
        asciiLower (extractFileExt vp) = ".cmd" ∨ asciiLower (extractFileExt vp) = ".com") :=
  validateExecutablePath_requires_allowed_extension okEnv "C:\\tool.exe" (by decide)
